import Mathlib

/-!
Verification of the api-gateway-auth-service core against its specification.

The definitions below are a shallow embedding of the TypeScript sources:
Redis is modelled as an explicit state (a counter map and a TTL map), the
relational store as list- or function-valued snapshots, and the cryptographic
primitives (SHA-256, bcrypt compare) as function parameters, since only their
input/output behaviour matters to the properties proved here.  Thrown
exceptions are modelled as error results; a storage outage is modelled by an
explicit failure-point parameter selecting which store round-trip throws.
-/

set_option autoImplicit false

namespace GatewaySpec

/-- Calendar timestamp, mirroring the fields of a JavaScript Date that
RateLimitService reads: local year, month (1-12), day, hour, minute, second
and millisecond. -/
structure DateTime where
  year : Nat
  month : Nat
  day : Nat
  hour : Nat
  minute : Nat
  second : Nat
  ms : Nat
  deriving DecidableEq, Repr

/-- Field ranges of a real calendar timestamp. -/
def DateTime.Valid (d : DateTime) : Prop :=
  1 ≤ d.month ∧ d.month ≤ 12 ∧ 1 ≤ d.day ∧ d.day ≤ 31 ∧
    d.hour < 24 ∧ d.minute < 60 ∧ d.second < 60 ∧ d.ms < 1000

instance (d : DateTime) : Decidable d.Valid := by
  unfold DateTime.Valid; infer_instance

/-- Two-digit zero padding, as in `String(x).padStart(2, ...)` with a zero pad
character, for the component values (below 100) the service formats. -/
def pad2 (n : Nat) : String :=
  if n < 10 then "0" ++ Nat.repr n else Nat.repr n

/-- RateLimitService.getMinuteWindow: the YYYYMMDDHHmm window identifier. -/
def getMinuteWindow (d : DateTime) : String :=
  Nat.repr d.year ++ pad2 d.month ++ pad2 d.day ++ pad2 d.hour ++ pad2 d.minute

/-- RateLimitService.getDayWindow: the YYYYMMDD window identifier. -/
def getDayWindow (d : DateTime) : String :=
  Nat.repr d.year ++ pad2 d.month ++ pad2 d.day

/-- Milliseconds elapsed since local midnight. -/
def msWithinDay (d : DateTime) : Nat :=
  ((d.hour * 60 + d.minute) * 60 + d.second) * 1000 + d.ms

/-- RateLimitService.getSecondsUntilNextDay: floor of the millisecond distance
to the next local midnight divided by 1000. -/
def getSecondsUntilNextDay (d : DateTime) : Nat :=
  (86400000 - msWithinDay d) / 1000

/-- The Redis state visible to this service: an integer counter per key
(absent key = 0, as INCR creates missing keys at 0) and an optional TTL in
seconds per key. -/
structure RedisState where
  counters : String → Nat
  ttl : String → Option Nat

/-- Redis with no keys set. -/
def emptyRedis : RedisState := ⟨fun _ => 0, fun _ => none⟩

/-- Redis INCR on one key. -/
def incrKey (st : RedisState) (k : String) : RedisState :=
  { st with counters := fun q => if q = k then st.counters q + 1 else st.counters q }

/-- Redis EXPIRE on one key. -/
def expireKey (st : RedisState) (k : String) (secs : Nat) : RedisState :=
  { st with ttl := fun q => if q = k then some secs else st.ttl q }

/-- Which rate-limit window was exhausted; mirrors the RATE_LIMIT_MINUTE and
RATE_LIMIT_DAY error codes of TooManyRequestsError. -/
inductive DenyKind
  | MINUTE
  | DAY
  deriving DecidableEq, Repr

/-- Observable outcome of checkRateLimit: a normal return (request allowed) or
a thrown TooManyRequestsError carrying the window kind. -/
inductive RLOutcome
  | Allowed
  | Denied (kind : DenyKind)
  deriving DecidableEq, Repr

/-- Which Redis round-trip of checkRateLimit throws, if any: `incrFail` makes
the increment pipeline exec throw (no increment applied), `expireFail` makes
the expiration pipeline exec throw (increments applied, expirations not). -/
inductive FailPoint
  | noFail
  | incrFail
  | expireFail
  deriving DecidableEq, Repr

/-- Counter key `rate:clientId:window` used by RateLimitService. -/
def rateKey (clientId window : String) : String :=
  "rate:" ++ clientId ++ ":" ++ window

/-- RateLimitService.checkRateLimit.  Inside the try block: increment both
window counters in one pipeline, set an expiration on each counter whose
post-increment value is 1 (minute: seconds to the next minute plus 1; day:
seconds to the next midnight plus 3600), then throw TooManyRequestsError if
the minute count exceeds requestsPerMinute, else if the day count exceeds
requestsPerDay.  The catch block re-throws TooManyRequestsError (here the
Denied outcome) and swallows every other error, allowing the request. -/
def checkRateLimit (st : RedisState) (fp : FailPoint) (clientId : String) (now : DateTime)
    (requestsPerMinute requestsPerDay : Nat) : RedisState × RLOutcome :=
  let minuteKey := rateKey clientId (getMinuteWindow now)
  let dayKey := rateKey clientId (getDayWindow now)
  match fp with
  | .incrFail => (st, .Allowed)
  | .expireFail => (incrKey (incrKey st minuteKey) dayKey, .Allowed)
  | .noFail =>
    let st1 := incrKey (incrKey st minuteKey) dayKey
    let minuteCount := st1.counters minuteKey
    let dayCount := st1.counters dayKey
    let st2 := if minuteCount = 1 then expireKey st1 minuteKey ((60 - now.second) + 1) else st1
    let st3 := if dayCount = 1 then expireKey st2 dayKey (getSecondsUntilNextDay now + 3600)
      else st2
    let outcome : RLOutcome :=
      if minuteCount > requestsPerMinute then .Denied .MINUTE
      else if dayCount > requestsPerDay then .Denied .DAY
      else .Allowed
    (st3, outcome)

/-- Redis state after `n` successful (no storage failure) calls of
checkRateLimit for the same client within the same window, starting from an
empty store. -/
def stateAfterCalls (clientId : String) (now : DateTime) (rpm rpd : Nat) : Nat → RedisState
  | 0 => emptyRedis
  | n + 1 => (checkRateLimit (stateAfterCalls clientId now rpm rpd n) .noFail
      clientId now rpm rpd).1

/-- Outcome of the i-th call (1-indexed) of checkRateLimit in that sequence. -/
def nthCallOutcome (clientId : String) (now : DateTime) (rpm rpd : Nat) (i : Nat) : RLOutcome :=
  (checkRateLimit (stateAfterCalls clientId now rpm rpd (i - 1)) .noFail clientId now rpm rpd).2

/-- A RefreshToken row as read by AuthService (the include pulls the owning
user, of which only the email is used).  The token column stores either the
SHA-256 hex digest of the issued token (new rows) or the raw token itself
(legacy rows). -/
structure RefreshTokenRec where
  userId : String
  token : String
  expiresAt : Int
  revoked : Bool
  userEmail : String
  deriving DecidableEq, Repr

/-- The three UnauthorizedError codes of AuthService.validateRefreshToken:
INVALID_REFRESH_TOKEN, REVOKED_REFRESH_TOKEN, EXPIRED_REFRESH_TOKEN. -/
inductive RefreshFailure
  | INVALID
  | REVOKED
  | EXPIRED
  deriving DecidableEq, Repr

/-- AuthRepository.findRefreshTokenByToken: lookup of a row by its (unique)
token column. -/
def findRefreshTokenByToken (db : List RefreshTokenRec) (tok : String) :
    Option RefreshTokenRec :=
  db.find? (fun r => r.token == tok)

/-- The lookup at the top of AuthService.validateRefreshToken: first by the
SHA-256 digest of the presented token, and only if that finds nothing, by the
raw presented value (legacy migration support). -/
def lookupRefreshToken (sha256 : String → String) (db : List RefreshTokenRec)
    (tok : String) : Option RefreshTokenRec :=
  match findRefreshTokenByToken db (sha256 tok) with
  | some r => some r
  | none => findRefreshTokenByToken db tok

/-- AuthService.validateRefreshToken: hash-then-plain lookup, then the ordered
checks existence, revoked flag, expiry (`expiresAt < new Date()` throws
EXPIRED), each throwing its own UnauthorizedError; on success returns the
userId and the owning user email.  SHA-256 is passed as a function. -/
def validateRefreshToken (sha256 : String → String) (db : List RefreshTokenRec)
    (tok : String) (now : Int) : Except RefreshFailure (String × String) :=
  match lookupRefreshToken sha256 db tok with
  | none => .error .INVALID
  | some r =>
    if r.revoked then .error .REVOKED
    else if r.expiresAt < now then .error .EXPIRED
    else .ok (r.userId, r.userEmail)

/-- An ApiClient row as read by ClientService: id, owning userId, the first 16
characters of the issued key, and the bcrypt hash of the full key. -/
structure ApiClientRec where
  id : String
  userId : String
  apiKeyPrefix : String
  apiKeyHash : String
  deriving DecidableEq, Repr

/-- An UnauthorizedError as thrown by ClientService.authenticateApiKey, with
its human message and machine-readable code. -/
structure AuthError where
  message : String
  code : String
  deriving DecidableEq, Repr

/-- The JavaScript string method startsWith, modelled on the character list. -/
def strStartsWith (s p : String) : Bool := s.data.take p.data.length == p.data

/-- The JavaScript call substring(0, n), modelled on the character list. -/
def strTake (s : String) (n : Nat) : String := ⟨s.data.take n⟩

/-- ClientRepository.findClientByApiKeyPrefix: all rows sharing the 16-char
lookup value, in store order. -/
def findClientByApiKeyPrefix (db : List ApiClientRec) (p : String) : List ApiClientRec :=
  db.filter (fun c => c.apiKeyPrefix == p)

/-- ClientService.authenticateApiKey.  Reject a key that does not start with
the literal `ak_live_` (an empty key also fails this test, subsuming the
`!apiKey` check); fetch candidates by the first 16 characters; return the
first candidate whose stored bcrypt hash verifies the full key (bcrypt compare
is passed as the function `verifyKey`); otherwise fail with the same
UnauthorizedError whether the candidate list was empty or no candidate
verified. -/
def authenticateApiKey (verifyKey : String → String → Bool) (db : List ApiClientRec)
    (apiKey : String) : Except AuthError (String × String) :=
  if !(strStartsWith apiKey "ak_live_") then
    .error ⟨"Invalid API key format", "INVALID_API_KEY_FORMAT"⟩
  else
    let clients := findClientByApiKeyPrefix db (strTake apiKey 16)
    if clients.isEmpty then .error ⟨"Invalid API key", "INVALID_API_KEY"⟩
    else
      match clients.find? (fun c => verifyKey apiKey c.apiKeyHash) with
      | some c => .ok (c.id, c.userId)
      | none => .error ⟨"Invalid API key", "INVALID_API_KEY"⟩

/-- The two members of the PlanType enum. -/
inductive PlanType
  | FREE
  | PRO
  deriving DecidableEq, Repr

/-- A requestsPerMinute and requestsPerDay limit pair (PlanLimits). -/
structure PlanLimits where
  requestsPerMinute : Nat
  requestsPerDay : Nat
  deriving DecidableEq, Repr

/-- PLAN_CONFIG from PlanConfig: the static plan-to-limits catalog. -/
def PLAN_CONFIG : PlanType → PlanLimits
  | .FREE => ⟨10, 1000⟩
  | .PRO => ⟨100, 100000⟩

/-- The enum cast `plan as PlanType` of getPlanLimits: the PlanType whose
string value is `s`, if any. -/
def planTypeOfString (s : String) : Option PlanType :=
  if s = "FREE" then some .FREE else if s = "PRO" then some .PRO else none

/-- getPlanLimits from PlanConfig: the catalog entry for the plan string,
falling back to the FREE entry for an unknown plan. -/
def getPlanLimits (plan : String) : PlanLimits :=
  match planTypeOfString plan with
  | some t => PLAN_CONFIG t
  | none => PLAN_CONFIG .FREE

/-- A Subscription row: plan string and its stored limit pair. -/
structure Subscription where
  plan : String
  requestsPerMinute : Nat
  requestsPerDay : Nat
  deriving DecidableEq, Repr

/-- The stores PlanService.getPlanLimitsForUser touches: the Redis limit
cache (the JSON round-trip is modelled as storing the limit pair itself) and
the durable subscription table keyed by userId. -/
structure PlanState where
  cache : String → Option PlanLimits
  subs : String → Option Subscription

/-- Cache key `plan:limits:userId`. -/
def planCacheKey (userId : String) : String := "plan:limits:" ++ userId

/-- A cache SET with 60s TTL; a write failure is caught and ignored, leaving
the cache unchanged. -/
def setPlanCache (st : PlanState) (k : String) (v : PlanLimits) (failWrite : Bool) :
    PlanState :=
  if failWrite then st
  else { st with cache := fun q => if q = k then some v else st.cache q }

/-- PlanService.getPlanLimitsForUser (the Redis-cached variant): try the
cache (a read failure is logged and treated as a miss); on a miss load the
subscription row, falling back to the FREE catalog entry when
PlanRepository.getSubscriptionByUserId throws NotFoundError; cache the
resolved pair either way and return it.  `cacheReadFails` and
`cacheWriteFails` select a throwing cache round-trip. -/
def getPlanLimitsForUser (st : PlanState) (cacheReadFails cacheWriteFails : Bool)
    (userId : String) : PlanState × PlanLimits :=
  let cacheKey := planCacheKey userId
  let cached := if cacheReadFails then none else st.cache cacheKey
  match cached with
  | some limits => (st, limits)
  | none =>
    match st.subs userId with
    | some sub =>
      let limits : PlanLimits := ⟨sub.requestsPerMinute, sub.requestsPerDay⟩
      (setPlanCache st cacheKey limits cacheWriteFails, limits)
    | none =>
      let limits := getPlanLimits "FREE"
      (setPlanCache st cacheKey limits cacheWriteFails, limits)

/-- Brute-force guard key `auth:limit:ip`. -/
def authLimitKey (ip : String) : String := "auth:limit:" ++ ip

/-- authRateLimitMiddleware: INCR the per-IP counter, set a 60s TTL when the
post-increment value is 1, and throw TooManyRequestsError (result `true` =
blocked) when the value exceeds 5.  A Redis failure is caught and the request
allowed through (`redisFails` selects a throwing INCR). -/
def authRateLimitMiddleware (st : RedisState) (ip : String) (redisFails : Bool) :
    RedisState × Bool :=
  if redisFails then (st, false)
  else
    let key := authLimitKey ip
    let st1 := incrKey st key
    let usage := st1.counters key
    let st2 := if usage = 1 then expireKey st1 key 60 else st1
    (st2, decide (usage > 5))

/-- The four endpoints registered by authRoutes. -/
inductive AuthRoute
  | register
  | login
  | refresh
  | logout
  deriving DecidableEq, Repr

/-- Which routes authRoutes registers with the authRateLimitMiddleware
preHandler: register and login only. -/
def routeHasBruteForceGuard : AuthRoute → Bool
  | .register => true
  | .login => true
  | .refresh => false
  | .logout => false

/-- The Redis effect of dispatching one auth request: Fastify runs the
preHandler (when registered) before the handler; the handlers themselves
(AuthController and AuthService) touch only the relational store, never
Redis, so their Redis effect is the identity.  Result `true` = blocked by the
brute-force guard. -/
def handleAuthRoute (r : AuthRoute) (st : RedisState) (ip : String) (redisFails : Bool) :
    RedisState × Bool :=
  if routeHasBruteForceGuard r then authRateLimitMiddleware st ip redisFails
  else (st, false)

/-- Fixed timestamp used by the concrete witnesses: 2023-12-15 14:30:05.000. -/
def wDate : DateTime := ⟨2023, 12, 15, 14, 30, 5, 0⟩

/-- Stand-in one-way digest used by the concrete witnesses. -/
def wHash (s : String) : String := "H:" ++ s

/-- Stand-in bcrypt comparison used by the concrete witnesses: a key verifies
exactly against its own digest. -/
def wVerify (key stored : String) : Bool := ("H:" ++ key) == stored

/-- Refresh-token table used by the C3 counterexample: one live row whose
expiry instant is exactly the validation instant. -/
def c3Db : List RefreshTokenRec := [⟨"u1", "H:tok", 100, false, "u1@example.com"⟩]

/-- Refresh-token table used by the C3 witness: a revoked row that is not yet
past its expiry. -/
def c3wDb : List RefreshTokenRec := [⟨"u1", "H:tok", 500, true, "u1@example.com"⟩]

/-- Refresh-token table used by the C6 witness: one legacy row storing the
raw token. -/
def c6Db : List RefreshTokenRec := [⟨"u2", "legacy-token", 500, false, "u2@example.com"⟩]

/-- Client table used by the C4 witness: two credentials sharing the 16-char
lookup value `ak_live_abcdefgh`. -/
def c4Db : List ApiClientRec :=
  [⟨"c1", "u1", "ak_live_abcdefgh", "H:ak_live_abcdefgh11"⟩,
   ⟨"c2", "u2", "ak_live_abcdefgh", "H:ak_live_abcdefgh22"⟩]

end GatewaySpec

namespace GatewaySpec

/- Helper lemmas shared by the claim theorems. -/

theorem pad2_length_pos : ∀ n : Nat, n < 100 → 1 ≤ (pad2 n).length := by decide

theorem minuteKey_ne_dayKey (cid : String) (d : DateTime) (h : d.hour < 24) :
    rateKey cid (getMinuteWindow d) ≠ rateKey cid (getDayWindow d) := by
  intro he
  have hl := congrArg String.length he
  have hp : 1 ≤ (pad2 d.hour).length := pad2_length_pos _ (by omega)
  simp [rateKey, getMinuteWindow, getDayWindow, String.length_append] at hl
  omega

theorem counters_expire_ite (c : Prop) [Decidable c] (s : RedisState) (k : String) (v : Nat) :
    (if c then expireKey s k v else s).counters = s.counters := by
  split <;> rfl

theorem checkRateLimit_noFail_state (st : RedisState) (cid : String) (d : DateTime)
    (rpm rpd : Nat) :
    (checkRateLimit st .noFail cid d rpm rpd).1.counters
      = (incrKey (incrKey st (rateKey cid (getMinuteWindow d)))
          (rateKey cid (getDayWindow d))).counters := by
  simp only [checkRateLimit, counters_expire_ite]

theorem incr2_counters_mk (st : RedisState) (mk dk : String) (hne : mk ≠ dk) :
    (incrKey (incrKey st mk) dk).counters mk = st.counters mk + 1 := by
  simp [incrKey, hne]

theorem incr2_counters_dk (st : RedisState) (mk dk : String) (hne : mk ≠ dk) :
    (incrKey (incrKey st mk) dk).counters dk = st.counters dk + 1 := by
  simp [incrKey, Ne.symm hne]

theorem incr2_counters_other (st : RedisState) (mk dk q : String) (h1 : q ≠ mk) (h2 : q ≠ dk) :
    (incrKey (incrKey st mk) dk).counters q = st.counters q := by
  simp [incrKey, h1, h2]

theorem checkRateLimit_noFail_outcome (st : RedisState) (cid : String) (d : DateTime)
    (rpm rpd : Nat) (h : d.hour < 24) :
    (checkRateLimit st .noFail cid d rpm rpd).2
      = (if st.counters (rateKey cid (getMinuteWindow d)) + 1 > rpm then .Denied .MINUTE
         else if st.counters (rateKey cid (getDayWindow d)) + 1 > rpd then .Denied .DAY
         else .Allowed) := by
  have hne := minuteKey_ne_dayKey cid d h
  simp only [checkRateLimit, incr2_counters_mk _ _ _ hne, incr2_counters_dk _ _ _ hne]

theorem stateAfterCalls_counters (cid : String) (d : DateTime) (rpm rpd : Nat)
    (h : d.hour < 24) (n : Nat) :
    (stateAfterCalls cid d rpm rpd n).counters (rateKey cid (getMinuteWindow d)) = n ∧
    (stateAfterCalls cid d rpm rpd n).counters (rateKey cid (getDayWindow d)) = n := by
  have hne := minuteKey_ne_dayKey cid d h
  induction n with
  | zero => exact ⟨rfl, rfl⟩
  | succ n ih =>
    constructor
    · show (checkRateLimit (stateAfterCalls cid d rpm rpd n) .noFail
        cid d rpm rpd).1.counters _ = _
      rw [checkRateLimit_noFail_state, incr2_counters_mk _ _ _ hne, ih.1]
    · show (checkRateLimit (stateAfterCalls cid d rpm rpd n) .noFail
        cid d rpm rpd).1.counters _ = _
      rw [checkRateLimit_noFail_state, incr2_counters_dk _ _ _ hne, ih.2]

theorem nthCallOutcome_eq (cid : String) (d : DateTime) (rpm rpd : Nat)
    (h : d.hour < 24) (i : Nat) (hi : 1 ≤ i) :
    nthCallOutcome cid d rpm rpd i
      = (if i > rpm then .Denied .MINUTE else if i > rpd then .Denied .DAY else .Allowed) := by
  have hc := stateAfterCalls_counters cid d rpm rpd h (i - 1)
  unfold nthCallOutcome
  rw [checkRateLimit_noFail_outcome _ _ _ _ _ h, hc.1, hc.2]
  have hi1 : i - 1 + 1 = i := by omega
  rw [hi1]

theorem ttl_expire_ite_ne (c : Prop) [Decidable c] (s : RedisState) (k q : String) (v : Nat)
    (hq : q ≠ k) : (if c then expireKey s k v else s).ttl q = s.ttl q := by
  split <;> simp [expireKey, hq]

theorem ttl_expire_ite_self (c : Prop) [Decidable c] (s : RedisState) (k : String) (v : Nat) :
    (if c then expireKey s k v else s).ttl k = if c then some v else s.ttl k := by
  split <;> simp [expireKey]

theorem checkRateLimit_noFail_ttl (st : RedisState) (cid : String) (d : DateTime)
    (rpm rpd : Nat) (h : d.hour < 24) :
    ((checkRateLimit st .noFail cid d rpm rpd).1.ttl (rateKey cid (getMinuteWindow d))
      = if st.counters (rateKey cid (getMinuteWindow d)) + 1 = 1
        then some ((60 - d.second) + 1) else st.ttl (rateKey cid (getMinuteWindow d))) ∧
    ((checkRateLimit st .noFail cid d rpm rpd).1.ttl (rateKey cid (getDayWindow d))
      = if st.counters (rateKey cid (getDayWindow d)) + 1 = 1
        then some (getSecondsUntilNextDay d + 3600)
        else st.ttl (rateKey cid (getDayWindow d))) := by
  have hne := minuteKey_ne_dayKey cid d h
  constructor
  · simp only [checkRateLimit]
    rw [ttl_expire_ite_ne _ _ _ _ _ hne, ttl_expire_ite_self,
      incr2_counters_mk _ _ _ hne]
    simp [incrKey]
  · simp only [checkRateLimit]
    rw [ttl_expire_ite_self, ttl_expire_ite_ne _ _ _ _ _ (Ne.symm hne),
      incr2_counters_dk _ _ _ hne]
    simp [incrKey]

/-- C1: within one window, starting from fresh counters, the first
`min rpm rpd` calls of checkRateLimit return Allowed; the next call is Denied
with kind MINUTE exactly when the minute count exceeds rpm (else DAY for the
day count exceeding rpd); and whenever both limits are exceeded in the same
call, the MINUTE kind is reported (minute check takes precedence). -/
theorem c1_first_window_calls_allowed_then_denied (cid : String) (d : DateTime)
    (h : d.hour < 24) (rpm rpd : Nat) :
    (∀ i, 1 ≤ i → i ≤ min rpm rpd → nthCallOutcome cid d rpm rpd i = .Allowed) ∧
    nthCallOutcome cid d rpm rpd (min rpm rpd + 1)
      = .Denied (if rpm ≤ rpd then .MINUTE else .DAY) ∧
    (∀ i, 1 ≤ i → rpm < i → rpd < i → nthCallOutcome cid d rpm rpd i = .Denied .MINUTE) := by
  refine ⟨?_, ?_, ?_⟩
  · intro i h1 h2
    rw [nthCallOutcome_eq cid d rpm rpd h i h1]
    have h3 : ¬ i > rpm := by omega
    have h4 : ¬ i > rpd := by omega
    simp [h3, h4]
  · rw [nthCallOutcome_eq cid d rpm rpd h _ (by omega)]
    rcases le_or_lt rpm rpd with hle | hlt
    · simp [Nat.min_eq_left hle, hle]
    · have h1 : ¬ (min rpm rpd + 1 > rpm) := by omega
      have h2 : min rpm rpd + 1 > rpd := by omega
      simp [h1, h2, Nat.not_le.mpr hlt]
  · intro i h1 h2 h3
    rw [nthCallOutcome_eq cid d rpm rpd h i h1]
    simp [h2]

/-- Witness for C1: with limits 2 per minute and 3 per day, calls 1 and 2 are
Allowed and call 3 is Denied MINUTE. -/
theorem c1_witness :
    nthCallOutcome "u1" wDate 2 3 1 = .Allowed ∧
    nthCallOutcome "u1" wDate 2 3 2 = .Allowed ∧
    nthCallOutcome "u1" wDate 2 3 3 = .Denied .MINUTE := by
  have h := c1_first_window_calls_allowed_then_denied "u1" wDate (by decide) 2 3
  exact ⟨h.1 1 (by decide) (by decide), h.1 2 (by decide) (by decide), by simpa using h.2.1⟩

/-- C2: when any Redis round-trip of checkRateLimit throws, the call completes
as Allowed (fail open); a Denied outcome (the only error checkRateLimit
re-throws) can only arise on the failure-free path. -/
theorem c2_storage_failure_fails_open (st : RedisState) (fp : FailPoint) (cid : String)
    (d : DateTime) (rpm rpd : Nat) (h : fp ≠ .noFail) :
    (checkRateLimit st fp cid d rpm rpd).2 = .Allowed := by
  cases fp with
  | noFail => exact absurd rfl h
  | incrFail => rfl
  | expireFail => rfl

/-- Witness for C2: with limits 0 (every request over limit), an outage at
either round-trip still yields Allowed. -/
theorem c2_witness :
    (checkRateLimit emptyRedis .incrFail "u1" wDate 0 0).2 = .Allowed ∧
    (checkRateLimit emptyRedis .expireFail "u1" wDate 0 0).2 = .Allowed :=
  ⟨c2_storage_failure_fails_open emptyRedis .incrFail "u1" wDate 0 0 (by decide),
   c2_storage_failure_fails_open emptyRedis .expireFail "u1" wDate 0 0 (by decide)⟩

/-- C7: on the failure-free path, a counter TTL is set exactly when the
post-increment value is 1, to the remaining window seconds plus the buffer
(1s for the minute window, 3600s for the day window), and each TTL covers at
least the remaining milliseconds of its logical window. -/
theorem c7_expiration_on_creating_increment (st : RedisState) (cid : String) (d : DateTime)
    (hv : d.Valid) (rpm rpd : Nat) :
    ((checkRateLimit st .noFail cid d rpm rpd).1.ttl (rateKey cid (getMinuteWindow d))
      = if st.counters (rateKey cid (getMinuteWindow d)) + 1 = 1
        then some ((60 - d.second) + 1) else st.ttl (rateKey cid (getMinuteWindow d))) ∧
    ((checkRateLimit st .noFail cid d rpm rpd).1.ttl (rateKey cid (getDayWindow d))
      = if st.counters (rateKey cid (getDayWindow d)) + 1 = 1
        then some (getSecondsUntilNextDay d + 3600)
        else st.ttl (rateKey cid (getDayWindow d))) ∧
    60000 - (1000 * d.second + d.ms) ≤ 1000 * ((60 - d.second) + 1) ∧
    86400000 - msWithinDay d ≤ 1000 * (getSecondsUntilNextDay d + 3600) := by
  have h24 : d.hour < 24 := hv.2.2.2.2.1
  have ht := checkRateLimit_noFail_ttl st cid d rpm rpd h24
  refine ⟨ht.1, ht.2, by omega, ?_⟩
  unfold getSecondsUntilNextDay msWithinDay
  omega

/-- Witness for C7: the first call at 14:30:05.000 sets TTL 56 on the minute
counter and TTL 37795 on the day counter. -/
theorem c7_witness :
    (checkRateLimit emptyRedis .noFail "u1" wDate 10 1000).1.ttl
      (rateKey "u1" (getMinuteWindow wDate)) = some 56 ∧
    (checkRateLimit emptyRedis .noFail "u1" wDate 10 1000).1.ttl
      (rateKey "u1" (getDayWindow wDate)) = some 37795 := by
  have h := c7_expiration_on_creating_increment emptyRedis "u1" wDate (by decide) 10 1000
  exact ⟨by simpa [emptyRedis, wDate] using h.1, by simpa [emptyRedis, wDate] using h.2.1⟩

/-- C9: every failure-free call of checkRateLimit increments both the minute
counter and the day counter of the partition key by exactly one (and touches
no other counter), whatever the outcome; in particular a Denied call keeps
both increments. -/
theorem c9_increment_both_counters_always (st : RedisState) (cid : String) (d : DateTime)
    (rpm rpd : Nat) (h : d.hour < 24) :
    (checkRateLimit st .noFail cid d rpm rpd).1.counters (rateKey cid (getMinuteWindow d))
      = st.counters (rateKey cid (getMinuteWindow d)) + 1 ∧
    (checkRateLimit st .noFail cid d rpm rpd).1.counters (rateKey cid (getDayWindow d))
      = st.counters (rateKey cid (getDayWindow d)) + 1 ∧
    (∀ q, q ≠ rateKey cid (getMinuteWindow d) → q ≠ rateKey cid (getDayWindow d) →
      (checkRateLimit st .noFail cid d rpm rpd).1.counters q = st.counters q) := by
  have hne := minuteKey_ne_dayKey cid d h
  refine ⟨?_, ?_, ?_⟩
  · rw [checkRateLimit_noFail_state, incr2_counters_mk _ _ _ hne]
  · rw [checkRateLimit_noFail_state, incr2_counters_dk _ _ _ hne]
  · intro q h1 h2
    rw [checkRateLimit_noFail_state, incr2_counters_other _ _ _ _ h1 h2]

/-- Witness for C9: with a minute limit of 0 the first call is Denied MINUTE,
yet both counters hold 1 afterwards — the denied call consumed a day unit. -/
theorem c9_witness :
    (checkRateLimit emptyRedis .noFail "u1" wDate 0 1000).2 = .Denied .MINUTE ∧
    (checkRateLimit emptyRedis .noFail "u1" wDate 0 1000).1.counters
      (rateKey "u1" (getMinuteWindow wDate)) = 1 ∧
    (checkRateLimit emptyRedis .noFail "u1" wDate 0 1000).1.counters
      (rateKey "u1" (getDayWindow wDate)) = 1 := by
  have h := c9_increment_both_counters_always emptyRedis "u1" wDate 0 1000 (by decide)
  exact ⟨by decide, by simpa [emptyRedis] using h.1, by simpa [emptyRedis] using h.2.1⟩

/-- C3 counterexample: the claim requires success only when expiresAt is
strictly after now, but the code succeeds when they are equal — the single
row of c3Db expires at instant 100, validation at instant 100 succeeds even
though expiresAt > now is false. -/
theorem c3_claim_counterexample :
    validateRefreshToken wHash c3Db "tok" 100 = .ok ("u1", "u1@example.com") ∧
    ¬ ((100 : Int) > 100) := ⟨rfl, by decide⟩

/-- C3 (amended): validateRefreshToken checks, in order, existence (failing
INVALID), the revoked flag (failing REVOKED whatever expiresAt holds), then
expiry, failing EXPIRED exactly when expiresAt is strictly before now; it
succeeds when the record exists, is not revoked, and expiresAt is at or after
now (the code accepts equality, not only expiresAt strictly greater). -/
theorem c3_validate_order_amended (sha256 : String → String) (db : List RefreshTokenRec)
    (tok : String) (now : Int) :
    (lookupRefreshToken sha256 db tok = none →
      validateRefreshToken sha256 db tok now = .error .INVALID) ∧
    (∀ r, lookupRefreshToken sha256 db tok = some r → r.revoked = true →
      validateRefreshToken sha256 db tok now = .error .REVOKED) ∧
    (∀ r, lookupRefreshToken sha256 db tok = some r → r.revoked = false →
      r.expiresAt < now → validateRefreshToken sha256 db tok now = .error .EXPIRED) ∧
    (∀ r, lookupRefreshToken sha256 db tok = some r → r.revoked = false →
      now ≤ r.expiresAt →
      validateRefreshToken sha256 db tok now = .ok (r.userId, r.userEmail)) := by
  refine ⟨?_, ?_, ?_, ?_⟩
  · intro h; simp [validateRefreshToken, h]
  · intro r hr hrev; simp [validateRefreshToken, hr, hrev]
  · intro r hr hrev hexp; simp [validateRefreshToken, hr, hrev, hexp]
  · intro r hr hrev hexp
    have hnlt : ¬ (r.expiresAt < now) := not_lt.mpr hexp
    simp [validateRefreshToken, hr, hrev, hnlt]

/-- Witness for C3 (amended): a revoked row whose expiry (500) is well after
now (100) still fails with REVOKED. -/
theorem c3_witness :
    validateRefreshToken wHash c3wDb "tok" 100 = .error .REVOKED :=
  (c3_validate_order_amended wHash c3wDb "tok" 100).2.1
    ⟨"u1", "H:tok", 500, true, "u1@example.com"⟩ rfl rfl

/-- C6: the refresh-token lookup tries the SHA-256 digest first and uses any
row it finds; only when the digest lookup finds nothing does it fall back to
the raw presented value, so a live legacy row stored as plaintext still
validates. -/
theorem c6_hash_lookup_with_plain_fallback (sha256 : String → String)
    (db : List RefreshTokenRec) (tok : String) (now : Int) :
    (∀ r, findRefreshTokenByToken db (sha256 tok) = some r →
      lookupRefreshToken sha256 db tok = some r) ∧
    (findRefreshTokenByToken db (sha256 tok) = none →
      lookupRefreshToken sha256 db tok = findRefreshTokenByToken db tok) ∧
    (∀ r, findRefreshTokenByToken db (sha256 tok) = none →
      findRefreshTokenByToken db tok = some r → r.revoked = false → now ≤ r.expiresAt →
      validateRefreshToken sha256 db tok now = .ok (r.userId, r.userEmail)) := by
  refine ⟨?_, ?_, ?_⟩
  · intro r h; simp [lookupRefreshToken, h]
  · intro h; simp [lookupRefreshToken, h]
  · intro r h1 h2 hrev hexp
    have hnlt : ¬ (r.expiresAt < now) := not_lt.mpr hexp
    simp [validateRefreshToken, lookupRefreshToken, h1, h2, hrev, hnlt]

/-- Witness for C6: the legacy row of c6Db stores the raw token; its digest
matches nothing, yet validation succeeds through the plaintext fallback. -/
theorem c6_witness :
    validateRefreshToken wHash c6Db "legacy-token" 100 = .ok ("u2", "u2@example.com") :=
  (c6_hash_lookup_with_plain_fallback wHash c6Db "legacy-token" 100).2.2
    ⟨"u2", "legacy-token", 500, false, "u2@example.com"⟩ rfl rfl rfl (by decide)

/-- C4: when the presented key is well-formed and some stored credential
carries its 16-char lookup value and is the only one whose stored hash
verifies the key (the one-way property of the hash), authenticateApiKey
returns exactly that credential's clientId and userId — never another
candidate sharing the lookup value. -/
theorem c4_no_cross_match_on_shared_lookup (verifyKey : String → String → Bool)
    (db : List ApiClientRec) (apiKey : String) (target : ApiClientRec)
    (hfmt : strStartsWith apiKey "ak_live_" = true)
    (hmem : target ∈ db)
    (hpref : target.apiKeyPrefix = strTake apiKey 16)
    (hver : verifyKey apiKey target.apiKeyHash = true)
    (huniq : ∀ c ∈ db, verifyKey apiKey c.apiKeyHash = true → c = target) :
    authenticateApiKey verifyKey db apiKey = .ok (target.id, target.userId) := by
  have hmemf : target ∈ findClientByApiKeyPrefix db (strTake apiKey 16) := by
    unfold findClientByApiKeyPrefix
    exact List.mem_filter.mpr ⟨hmem, by simp [hpref]⟩
  have hie : (findClientByApiKeyPrefix db (strTake apiKey 16)).isEmpty = false := by
    cases h : (findClientByApiKeyPrefix db (strTake apiKey 16)).isEmpty
    · rfl
    · exfalso
      rw [List.isEmpty_iff] at h
      rw [h] at hmemf
      exact absurd hmemf (List.not_mem_nil target)
  cases hfind : (findClientByApiKeyPrefix db (strTake apiKey 16)).find?
      (fun c => verifyKey apiKey c.apiKeyHash) with
  | none =>
    exfalso
    rw [List.find?_eq_none] at hfind
    exact absurd hver (by simpa using hfind target hmemf)
  | some c =>
    have hc1 : verifyKey apiKey c.apiKeyHash = true := by
      have hs := List.find?_some hfind
      simpa using hs
    have hc2 : c ∈ db := by
      have hcf := List.mem_of_find?_eq_some hfind
      exact (List.mem_filter.mp hcf).1
    have hct : c = target := huniq c hc2 hc1
    simp [authenticateApiKey, hfmt, hie, hfind, hct]

/-- Witness for C4: both rows of c4Db share the lookup value
`ak_live_abcdefgh`; presenting the second key authenticates as c2, not c1. -/
theorem c4_witness :
    authenticateApiKey wVerify c4Db "ak_live_abcdefgh22" = .ok ("c2", "u2") :=
  c4_no_cross_match_on_shared_lookup wVerify c4Db "ak_live_abcdefgh22"
    ⟨"c2", "u2", "ak_live_abcdefgh", "H:ak_live_abcdefgh22"⟩
    (by decide) (by decide) (by decide) (by decide) (by decide)

/-- C5: for well-formed keys, the failure with zero candidates and the
failure with candidates none of which verifies are the same AuthError value
(message "Invalid API key", code INVALID_API_KEY) — the caller cannot tell
the two causes apart. -/
theorem c5_uniform_invalid_key_failure (v1 v2 : String → String → Bool)
    (db1 db2 : List ApiClientRec) (k1 k2 : String)
    (h1 : strStartsWith k1 "ak_live_" = true) (h2 : strStartsWith k2 "ak_live_" = true)
    (hempty : findClientByApiKeyPrefix db1 (strTake k1 16) = [])
    (hnonempty : findClientByApiKeyPrefix db2 (strTake k2 16) ≠ [])
    (hnover : ∀ c ∈ findClientByApiKeyPrefix db2 (strTake k2 16), v2 k2 c.apiKeyHash = false) :
    authenticateApiKey v1 db1 k1 = .error ⟨"Invalid API key", "INVALID_API_KEY"⟩ ∧
    authenticateApiKey v2 db2 k2 = .error ⟨"Invalid API key", "INVALID_API_KEY"⟩ ∧
    authenticateApiKey v1 db1 k1 = authenticateApiKey v2 db2 k2 := by
  have e1 : authenticateApiKey v1 db1 k1 = .error ⟨"Invalid API key", "INVALID_API_KEY"⟩ := by
    simp [authenticateApiKey, h1, hempty]
  have hfind : (findClientByApiKeyPrefix db2 (strTake k2 16)).find?
      (fun c => v2 k2 c.apiKeyHash) = none := by
    rw [List.find?_eq_none]
    intro c hc
    simp [hnover c hc]
  have hie : (findClientByApiKeyPrefix db2 (strTake k2 16)).isEmpty = false := by
    cases h : (findClientByApiKeyPrefix db2 (strTake k2 16)).isEmpty
    · rfl
    · exact absurd (List.isEmpty_iff.mp h) hnonempty
  have e2 : authenticateApiKey v2 db2 k2 = .error ⟨"Invalid API key", "INVALID_API_KEY"⟩ := by
    simp [authenticateApiKey, h2, hie, hfind]
  exact ⟨e1, e2, by rw [e1, e2]⟩

/-- Witness for C5: an unknown lookup value over an empty table and a known
lookup value whose candidates all fail verification produce equal results. -/
theorem c5_witness :
    authenticateApiKey (fun _ _ => false) [] "ak_live_zzzzzzzz"
      = authenticateApiKey (fun _ _ => false) c4Db "ak_live_abcdefgh99" :=
  (c5_uniform_invalid_key_failure (fun _ _ => false) (fun _ _ => false) [] c4Db
    "ak_live_zzzzzzzz" "ak_live_abcdefgh99"
    (by decide) (by decide) rfl (by decide) (by decide)).2.2

theorem subs_setPlanCache (st : PlanState) (k : String) (v : PlanLimits) (fw : Bool) :
    (setPlanCache st k v fw).subs = st.subs := by
  unfold setPlanCache
  split <;> rfl

/-- C8: for a user with no subscription row, getPlanLimitsForUser (reached
past the cache, i.e. on a cache miss or a cache-read failure) returns the
FREE catalog policy of 10 requests per minute and 1000 per day, and the read
never writes the subscription table. -/
theorem c8_free_default_without_record (st : PlanState) (crf cwf : Bool) (userId : String)
    (hnosub : st.subs userId = none)
    (hmiss : crf = true ∨ st.cache (planCacheKey userId) = none) :
    (getPlanLimitsForUser st crf cwf userId).2 = ⟨10, 1000⟩ ∧
    (getPlanLimitsForUser st crf cwf userId).2 = PLAN_CONFIG .FREE ∧
    (∀ u, (getPlanLimitsForUser st crf cwf userId).1.subs u = st.subs u) := by
  have hcached : (if crf then (none : Option PlanLimits) else st.cache (planCacheKey userId))
      = none := by
    rcases hmiss with h | h
    · simp [h]
    · cases crf <;> simp [h]
  refine ⟨?_, ?_, ?_⟩
  · simp [getPlanLimitsForUser, hcached, hnosub, getPlanLimits, planTypeOfString, PLAN_CONFIG]
  · simp [getPlanLimitsForUser, hcached, hnosub, getPlanLimits, planTypeOfString]
  · intro u
    simp [getPlanLimitsForUser, hcached, hnosub, subs_setPlanCache]

/-- Witness for C8: over empty stores the resolved limits are 10 and 1000 and
no subscription row appears. -/
theorem c8_witness :
    (getPlanLimitsForUser ⟨fun _ => none, fun _ => none⟩ false false "u9").2 = ⟨10, 1000⟩ ∧
    (getPlanLimitsForUser ⟨fun _ => none, fun _ => none⟩ false false "u9").1.subs "u9"
      = none :=
  ⟨(c8_free_default_without_record ⟨fun _ => none, fun _ => none⟩ false false "u9"
      rfl (Or.inr rfl)).1,
   by
    have h := (c8_free_default_without_record ⟨fun _ => none, fun _ => none⟩ false false "u9"
      rfl (Or.inr rfl)).2.2 "u9"
    simpa using h⟩

/-- C10: only the register and login routes run the brute-force guard;
dispatching refresh or logout leaves the Redis state untouched (so the
auth counter of the client IP is neither read nor written) and never blocks;
on register and login the guard increments the per-IP counter, blocks exactly
when the post-increment value exceeds 5, and sets a 60-second TTL on the
increment that creates the key. -/
theorem c10_brute_force_guard_scope (st : RedisState) (ip : String) (rf : Bool) :
    handleAuthRoute .refresh st ip rf = (st, false) ∧
    handleAuthRoute .logout st ip rf = (st, false) ∧
    handleAuthRoute .register st ip rf = authRateLimitMiddleware st ip rf ∧
    handleAuthRoute .login st ip rf = authRateLimitMiddleware st ip rf ∧
    (rf = false →
      (authRateLimitMiddleware st ip false).1.counters (authLimitKey ip)
        = st.counters (authLimitKey ip) + 1 ∧
      ((authRateLimitMiddleware st ip false).2 = true
        ↔ st.counters (authLimitKey ip) + 1 > 5) ∧
      (st.counters (authLimitKey ip) = 0 →
        (authRateLimitMiddleware st ip false).1.ttl (authLimitKey ip) = some 60)) := by
  refine ⟨rfl, rfl, rfl, rfl, ?_⟩
  intro _
  have hc : (incrKey st (authLimitKey ip)).counters (authLimitKey ip)
      = st.counters (authLimitKey ip) + 1 := by simp [incrKey]
  refine ⟨?_, ?_, ?_⟩
  · simp only [authRateLimitMiddleware, if_neg Bool.false_ne_true, hc]
    rw [counters_expire_ite]
    simp [incrKey]
  · simp only [authRateLimitMiddleware, if_neg Bool.false_ne_true, hc]
    simp
  · intro h0
    simp only [authRateLimitMiddleware, if_neg Bool.false_ne_true, hc]
    rw [ttl_expire_ite_self]
    simp [h0]

/-- Witness for C10: a refresh request leaves Redis untouched, while the
guard on a first register/login increments the IP counter to 1 with TTL 60. -/
theorem c10_witness :
    handleAuthRoute .refresh emptyRedis "1.2.3.4" false = (emptyRedis, false) ∧
    (authRateLimitMiddleware emptyRedis "1.2.3.4" false).1.counters (authLimitKey "1.2.3.4")
      = 1 ∧
    (authRateLimitMiddleware emptyRedis "1.2.3.4" false).1.ttl (authLimitKey "1.2.3.4")
      = some 60 := by
  have h := c10_brute_force_guard_scope emptyRedis "1.2.3.4" false
  exact ⟨h.1, by simpa [emptyRedis] using (h.2.2.2.2 rfl).1,
    (h.2.2.2.2 rfl).2.2 rfl⟩

end GatewaySpec
